import Mathlib

/-!
Verification of the atomium structural data model against its specification.

The embedding below translates `src/atomium/structures/molecules.py`
(`AtomicStructure` and its methods) into Lean.  Python objects passed to the
constructor are modelled by `PyObj` (atom objects are identified by a numeric
identity, mirroring Python object identity; non-atom arguments such as strings
and integers get their own constructors).  Raised exceptions are modelled by
the `Except` monad over the `PyError` taxonomy.  Components of the repository
that are imported but whose code is not present (the `Atom` mass table of
`atoms.py`, the external `geometrica` transforms, the `PdbRecord` line parser
and the `Pdb` file container) are modelled from the specification; each such
definition carries a doc comment starting with `Modelled from the spec:`.
-/

/-- The Python exception classes relevant to the data model. -/
inductive PyError where
  | typeError
  | valueError
  | noAtomsError
  | keyError
deriving DecidableEq, Repr

/-- A Python object that may be handed to `AtomicStructure.__init__`: either an
atom object (identified by its object identity, a natural number) or a
non-atom value such as a string or an integer. -/
inductive PyObj where
  | atom (id : Nat)
  | str (s : String)
  | int (n : Int)
deriving DecidableEq, Repr

/-- `isinstance(x, Atom)` for a `PyObj`. -/
def PyObj.isAtom : PyObj → Bool
  | .atom _ => true
  | _ => false

/-- The atom identity carried by an atom object, if any. -/
def PyObj.atomId : PyObj → Option Nat
  | .atom i => some i
  | _ => none

/-- The state of an `AtomicStructure`: its backing set `self._atoms` of atom
references (set semantics over object identities). -/
structure AtomicStructure where
  _atoms : Finset Nat
deriving DecidableEq

/-- `AtomicStructure.__init__(self, *atoms)` from molecules.py: if any
argument is not an `Atom` instance, raise `TypeError`; otherwise store
`set(atoms)`.  (Zero arguments pass the `all` check, so construction succeeds
with an empty backing set.) -/
def AtomicStructure.init (args : List PyObj) : Except PyError AtomicStructure :=
  if ¬ args.all PyObj.isAtom then
    .error .typeError
  else
    .ok ⟨(args.filterMap PyObj.atomId).toFinset⟩

/-- `AtomicStructure.atoms(self, element=None)` from molecules.py: return a
copy of the backing set, filtered by element equality when a truthy `element`
argument is given (`None` and the empty string are falsy in Python and skip
the filter).  `element_of` gives each atom object's `element()` value. -/
def AtomicStructure.atoms (element_of : Nat → String) (s : AtomicStructure)
    (element : Option String) : Finset Nat :=
  match element with
  | none => s._atoms
  | some e => if e = "" then s._atoms else s._atoms.filter (fun a => element_of a = e)

/-- `C1` evaluation helper theorems use these concrete inputs. -/
def sampleElements : Nat → String :=
  fun n => if n = 0 then "C" else if n = 1 then "N" else "My"

/-- **C1** (code evaluation at the failing input).  Constructing an
`AtomicStructure` from zero arguments does *not* fail: every argument of the
empty tuple vacuously passes the `isinstance` check, so the constructor
succeeds and produces a structure whose backing set is empty.  The repo's own
test `test_cannot_make_empty_atomic_structure` (and the spec) instead demand a
dedicated `NoAtomsError`; the code never raises it (no such branch exists in
`AtomicStructure.__init__`), so this is a divergence of the code from its own
test suite. -/
theorem c1_empty_construction_succeeds :
    AtomicStructure.init [] = .ok ⟨∅⟩ := by
  rfl

/-- **C2** (code evaluation at the failing input).  `atoms` in molecules.py
takes only an optional `element` filter and performs no validation of the
selector at all: called with the unrecognized selector string `"xyz"` on a
structure of two atoms (elements `"C"` and `"N"`), it returns the filtered
(here empty) set without raising any error.  The claimed `TypeError` /
`ValueError` taxonomy for a kind selector (asserted by the repo's own test
`test_atom_retrieval_must_be_of_valid_type`) does not exist in this code: the
return type of the embedding is a plain set, not an error-carrying result. -/
theorem c2_unrecognized_selector_no_error :
    AtomicStructure.atoms sampleElements ⟨{0, 1}⟩ (some "xyz") = ∅ := by
  rfl

/-- **C3**: construction of an `AtomicStructure` validates every argument
before any is admitted: if at least one argument is not an atom, construction
fails with a `TypeError`-class error, regardless of how many other arguments
are valid atoms, and no structure value is produced (the result is `.error`,
never `.ok`). -/
theorem c3_nonatom_argument_fails (args : List PyObj)
    (h : ∃ o ∈ args, o.isAtom = false) :
    AtomicStructure.init args = .error .typeError := by
  unfold AtomicStructure.init
  rw [if_pos]
  intro hall
  obtain ⟨o, ho, hno⟩ := h
  have := List.all_eq_true.mp hall o ho
  rw [hno] at this
  exact Bool.false_ne_true this

/-- Witness for C3: a mixed argument list with one valid atom and one string
argument fails with a `TypeError`. -/
theorem c3_witness :
    (∃ o ∈ [PyObj.atom 0, PyObj.str "Atom1"], o.isAtom = false) ∧
    AtomicStructure.init [PyObj.atom 0, PyObj.str "Atom1"] = .error .typeError :=
  ⟨by decide, c3_nonatom_argument_fails [PyObj.atom 0, PyObj.str "Atom1"] (by decide)⟩

/-- **C4**: for every non-empty set `A` of atom objects, constructing an
`AtomicStructure` from the members of `A` succeeds, and calling `atoms()` with
no filter on the result returns exactly the set `A` (order-independent, since
both sides are finite sets). -/
theorem c4_atoms_roundtrip (A : Finset Nat) (element_of : Nat → String)
    (h : A ≠ ∅) :
    AtomicStructure.init (A.toList.map PyObj.atom) = .ok ⟨A⟩ ∧
    AtomicStructure.atoms element_of ⟨A⟩ none = A := by
  constructor
  · unfold AtomicStructure.init
    rw [if_neg]
    · have hfm : (A.toList.map PyObj.atom).filterMap PyObj.atomId = A.toList := by
        rw [List.filterMap_map]
        have hcomp : (PyObj.atomId ∘ PyObj.atom) = some := rfl
        rw [hcomp, List.filterMap_some]
      rw [hfm, Finset.toList_toFinset]
    · intro hno
      apply hno
      rw [List.all_eq_true]
      intro o ho
      obtain ⟨a, _, rfl⟩ := List.mem_map.mp ho
      rfl
  · rfl

/-- Witness for C4: the two-atom set `{1, 2}`. -/
theorem c4_witness :
    ({1, 2} : Finset Nat) ≠ ∅ ∧
    (AtomicStructure.init (({1, 2} : Finset Nat).toList.map PyObj.atom) = .ok ⟨{1, 2}⟩ ∧
     AtomicStructure.atoms sampleElements ⟨{1, 2}⟩ none = {1, 2}) :=
  ⟨by decide, c4_atoms_roundtrip {1, 2} sampleElements (by decide)⟩

/-- Modelled from the spec: the `PdbRecord` line parser of the repository's
pdb parsing module is not present under src (only its test is), so its
construction is modelled from the specification, section 4.2: the stored
`text` is the input line truncated to 80 characters and right-padded with
spaces to exactly 80; the record `name` is the first 6 characters of `text`
with trailing spaces stripped; `contents` is columns 7 through 80 of `text`;
the 1-based `number` is supplied by the caller, not parsed.  Lines are
modelled as lists of characters. -/
def padToEighty (line : List Char) : List Char :=
  line.take 80 ++ List.replicate (80 - line.length) ' '

/-- Strip trailing space characters from a line (used for the record name). -/
def stripTrailingSpaces (l : List Char) : List Char :=
  (l.reverse.dropWhile (fun c => c = ' ')).reverse

/-- A parsed fixed-column record: sequence number, trimmed name, the full
80-character text and the 74-character contents region. -/
structure PdbRecord where
  number : Int
  name : List Char
  text : List Char
  contents : List Char
deriving DecidableEq

/-- Modelled from the spec: `PdbRecord.__init__(line, number)`. -/
def PdbRecord.create (line : List Char) (number : Int) : PdbRecord :=
  let text := padToEighty line
  { number := number
    name := stripTrailingSpaces (text.take 6)
    text := text
    contents := text.drop 6 }

/-- The padded text always has exactly 80 characters, whatever the input
length. -/
theorem padToEighty_length (line : List Char) : (padToEighty line).length = 80 := by
  unfold padToEighty
  rw [List.length_append, List.length_take, List.length_replicate]
  omega

/-- **C5**: parsing one physical line of any length yields a record whose
`text` field has exactly 80 characters (short input right-padded with spaces,
long input truncated) and whose `contents` field has exactly 74 characters;
in particular this holds for every input length 0 through 80 and for
arbitrarily long (malformed) input. -/
theorem c5_record_lengths (line : List Char) (number : Int) :
    (PdbRecord.create line number).text.length = 80 ∧
    (PdbRecord.create line number).contents.length = 74 := by
  constructor
  · exact padToEighty_length line
  · show ((padToEighty line).drop 6).length = 74
    rw [List.length_drop, padToEighty_length]

/-- A 3-dimensional coordinate of an atom.  Python floats are idealized as
real numbers, so the floating-point tolerance in the round-trip laws becomes
exact equality. -/
structure Point where
  x : ℝ
  y : ℝ
  z : ℝ

/-- The mutable coordinate state of the atom heap: each atom object identity
has current coordinates (`atom._x`, `atom._y`, `atom._z`). -/
def Coords : Type := Nat → Point

/-- `list(self._atoms)` in molecules.py: a duplicate-free listing of the
backing set (a Python set yields an arbitrary but fixed enumeration; the
embedding determinizes it as the sorted listing). -/
def AtomicStructure.listAtoms (s : AtomicStructure) : List Nat :=
  s._atoms.sort (· ≤ ·)

/-- Modelled from the spec: `geometrica.translate(atoms, dx, dy, dz)` is an
external import of molecules.py whose code is not in the repository; per the
spec it moves every point of the batch by the vector `(dx, dy, dz)` and
returns the new point list in order. -/
def geometricaTranslate (points : List Point) (dx dy dz : ℝ) : List Point :=
  points.map (fun p => ⟨p.x + dx, p.y + dy, p.z + dz⟩)

/-- The write-back loop shared by `translate` and `rotate` in molecules.py:
`for index, atom in enumerate(atoms): atom._x, atom._y, atom._z =
points[index]`, assigning each listed atom its corresponding new point. -/
def writeback (σ : Coords) (ids : List Nat) (points : List Point) : Coords :=
  match ids, points with
  | i :: is, p :: ps => writeback (fun j => if j = i then p else σ j) is ps
  | _, _ => σ

/-- `AtomicStructure.translate(self, dx, dy, dz)` from molecules.py: list the
backing set, compute the whole translated point cloud as a batch, then write
the new coordinates back atom by atom. -/
def AtomicStructure.translate (σ : Coords) (s : AtomicStructure)
    (dx dy dz : ℝ) : Coords :=
  let atoms := s.listAtoms
  let points := geometricaTranslate (atoms.map σ) dx dy dz
  writeback σ atoms points

/-- Writing back a pointwise-computed cloud over a duplicate-free listing
updates exactly the listed atoms. -/
theorem writeback_map (g : Nat → Point) :
    ∀ (ids : List Nat) (σ : Coords), ids.Nodup →
      writeback σ ids (ids.map (fun i => g i)) =
        fun j => if j ∈ ids then g j else σ j := by
  intro ids
  induction ids with
  | nil =>
    intro σ _
    funext j
    simp [writeback]
  | cons i is ih =>
    intro σ hnd
    rw [List.map_cons]
    show writeback (fun j => if j = i then g i else σ j) is (is.map (fun i => g i)) = _
    rw [ih _ (List.Nodup.of_cons hnd)]
    funext j
    by_cases hji : j = i
    · subst hji
      have hni : j ∉ is := (List.nodup_cons.mp hnd).1
      simp [hni]
    · by_cases hjs : j ∈ is <;> simp [hji, hjs]

/-- `translate` acts as a pointwise shift on members of the structure and
leaves every other atom's coordinates unchanged. -/
theorem AtomicStructure.translate_pointwise (σ : Coords) (s : AtomicStructure)
    (dx dy dz : ℝ) :
    AtomicStructure.translate σ s dx dy dz =
      fun j => if j ∈ s.listAtoms
        then ⟨(σ j).x + dx, (σ j).y + dy, (σ j).z + dz⟩ else σ j := by
  show writeback σ s.listAtoms
      ((s.listAtoms.map σ).map (fun p => ⟨p.x + dx, p.y + dy, p.z + dz⟩)) = _
  rw [List.map_map]
  exact writeback_map (fun i => ⟨(σ i).x + dx, (σ i).y + dy, (σ i).z + dz⟩)
    s.listAtoms σ (s._atoms.sort_nodup (· ≤ ·))

/-- **C6**: for every structure and all deltas, `translate(dx, dy, dz)`
followed by `translate(-dx, -dy, -dz)` restores every atom's original
coordinates; in the real-number idealization the restoration is exact, which
implies the claimed restoration up to any floating-point tolerance ε. -/
theorem c6_translate_roundtrip (σ : Coords) (s : AtomicStructure)
    (dx dy dz : ℝ) :
    AtomicStructure.translate (AtomicStructure.translate σ s dx dy dz) s
      (-dx) (-dy) (-dz) = σ := by
  rw [AtomicStructure.translate_pointwise, AtomicStructure.translate_pointwise]
  funext j
  by_cases hj : j ∈ s.listAtoms
  · simp [hj]
  · simp [hj]

/-- Right-handed rotation of a point about the x axis by an angle given in
degrees. -/
noncomputable def rotatePointX (angle : ℝ) (p : Point) : Point :=
  let t := angle * Real.pi / 180
  ⟨p.x, p.y * Real.cos t - p.z * Real.sin t, p.y * Real.sin t + p.z * Real.cos t⟩

/-- Right-handed rotation of a point about the y axis by an angle given in
degrees. -/
noncomputable def rotatePointY (angle : ℝ) (p : Point) : Point :=
  let t := angle * Real.pi / 180
  ⟨p.x * Real.cos t + p.z * Real.sin t, p.y, -p.x * Real.sin t + p.z * Real.cos t⟩

/-- Right-handed rotation of a point about the z axis by an angle given in
degrees. -/
noncomputable def rotatePointZ (angle : ℝ) (p : Point) : Point :=
  let t := angle * Real.pi / 180
  ⟨p.x * Real.cos t - p.y * Real.sin t, p.x * Real.sin t + p.y * Real.cos t, p.z⟩

/-- Modelled from the spec: `geometrica.rotate(atoms, axis, angle)` is an
external import of molecules.py whose code is not in the repository; per the
spec it applies a right-handed rotation about one of the three principal
axes, and any axis value other than the strings x, y, z fails with a
`ValueError`-class error before any point is produced. -/
noncomputable def geometricaRotate (points : List Point) (axis : String)
    (angle : ℝ) : Except PyError (List Point) :=
  if axis = "x" then .ok (points.map (rotatePointX angle))
  else if axis = "y" then .ok (points.map (rotatePointY angle))
  else if axis = "z" then .ok (points.map (rotatePointZ angle))
  else .error .valueError

/-- `AtomicStructure.rotate(self, axis, angle)` from molecules.py: list the
backing set, compute the whole rotated point cloud as a batch, then write the
new coordinates back atom by atom.  If the batch computation raises, the
write-back loop is never entered, so the coordinate state is returned
unchanged alongside the propagated error. -/
noncomputable def AtomicStructure.rotate (σ : Coords) (s : AtomicStructure)
    (axis : String) (angle : ℝ) : Except PyError Unit × Coords :=
  let atoms := s.listAtoms
  match geometricaRotate (atoms.map σ) axis angle with
  | .ok points => (.ok (), writeback σ atoms points)
  | .error e => (.error e, σ)

/-- **C7**: calling `rotate` with an axis value outside x, y, z always fails
with a `ValueError`-class error and leaves every atom's coordinates exactly as
they were (the returned coordinate state is the original one: no mutation
happens on the error path). -/
theorem c7_rotate_bad_axis (σ : Coords) (s : AtomicStructure) (axis : String)
    (angle : ℝ) (hx : axis ≠ "x") (hy : axis ≠ "y") (hz : axis ≠ "z") :
    AtomicStructure.rotate σ s axis angle = (.error .valueError, σ) := by
  unfold AtomicStructure.rotate geometricaRotate
  simp only [if_neg hx, if_neg hy, if_neg hz]

/-- Witness for C7: rotating a one-atom structure about the invalid axis
string w fails with a `ValueError` and returns the coordinate state
unchanged. -/
theorem c7_witness :
    ("w" : String) ≠ "x" ∧
    AtomicStructure.rotate (fun _ => ⟨0, 0, 0⟩) ⟨{0}⟩ "w" 90 =
      (.error .valueError, fun _ => ⟨0, 0, 0⟩) :=
  ⟨by decide,
   c7_rotate_bad_axis (fun _ => ⟨0, 0, 0⟩) ⟨{0}⟩ "w" 90
     (by decide) (by decide) (by decide)⟩

/-- Modelled from the spec: the relative atomic mass table of the `Atom`
class (`atoms.py`, imported by molecules.py but not present under src):
element symbol to mass in Daltons, for the elements exercised by the test
suite; per the spec an element missing from the table contributes zero mass
rather than failing. -/
def PERIODIC_TABLE : List (String × ℚ) :=
  [("H", 1.008), ("C", 12.011), ("N", 14.007), ("O", 15.999),
   ("Li", 6.94), ("Na", 22.99), ("Fe", 55.845), ("U", 238.029)]

/-- Modelled from the spec: `Atom.mass()` looks the atom's element up in the
relative atomic mass table and returns zero for an unknown element, never
failing. -/
def atomMass (element : String) : ℚ :=
  (PERIODIC_TABLE.lookup element).getD 0

/-- The summed mass of a group of atoms (used to state mass additivity over
sub-groups). -/
def massOf (element_of : Nat → String) (g : Finset Nat) : ℚ :=
  ∑ a ∈ g, atomMass (element_of a)

/-- `AtomicStructure.mass(self)` from molecules.py: the sum of `atom.mass()`
over the backing set. -/
def AtomicStructure.mass (element_of : Nat → String) (s : AtomicStructure) : ℚ :=
  ∑ a ∈ s._atoms, atomMass (element_of a)

/-- A group disjoint from every member of a list of groups is disjoint from
their union. -/
theorem disjoint_foldr_union (g : Finset Nat) :
    ∀ gs : List (Finset Nat), (∀ t ∈ gs, Disjoint g t) →
      Disjoint g (gs.foldr (· ∪ ·) ∅) := by
  intro gs
  induction gs with
  | nil => intro _; simp
  | cons t ts ih =>
    intro h
    rw [List.foldr_cons, Finset.disjoint_union_right]
    exact ⟨h t (List.mem_cons_self t ts), ih fun u hu => h u (List.mem_cons_of_mem t hu)⟩

/-- Summed mass distributes over a pairwise-disjoint family of groups. -/
theorem massOf_foldr_union (element_of : Nat → String) :
    ∀ gs : List (Finset Nat), gs.Pairwise Disjoint →
      massOf element_of (gs.foldr (· ∪ ·) ∅) = (gs.map (massOf element_of)).sum := by
  intro gs
  induction gs with
  | nil => intro _; simp [massOf]
  | cons g ts ih =>
    intro h
    obtain ⟨hg, hts⟩ := List.pairwise_cons.mp h
    rw [List.foldr_cons, List.map_cons, List.sum_cons, ← ih hts]
    exact Finset.sum_union (disjoint_foldr_union g ts hg)

/-- **C8**: the mass of a structure equals the sum of the masses of the
groups of any partition of its atoms into pairwise-disjoint sub-groups
(additivity over disjoint unions), and an element with no entry in the
atomic mass table contributes zero mass; the mass computation is a total
function, so an unknown element can never cause a failure. -/
theorem c8_mass_additive (element_of : Nat → String) (s : AtomicStructure)
    (gs : List (Finset Nat)) (hdisj : gs.Pairwise Disjoint)
    (hcover : gs.foldr (· ∪ ·) ∅ = s._atoms) :
    AtomicStructure.mass element_of s = (gs.map (massOf element_of)).sum ∧
    ∀ e : String, PERIODIC_TABLE.lookup e = none → atomMass e = 0 := by
  constructor
  · rw [← massOf_foldr_union element_of gs hdisj, hcover]
    rfl
  · intro e he
    unfold atomMass
    rw [he]
    rfl

/-- Witness for C8: a three-atom structure (elements C, H and the unknown
element My) partitioned into the sub-groups containing atom 0 and atoms 1, 2;
the masses add up and the unknown element My contributes zero. -/
theorem c8_witness :
    ([{0}, {1, 2}] : List (Finset Nat)).foldr (· ∪ ·) ∅ = ({0, 1, 2} : Finset Nat) ∧
    (AtomicStructure.mass (fun n => if n = 0 then "C" else if n = 1 then "H" else "My")
        ⟨{0, 1, 2}⟩ =
      (([{0}, {1, 2}] : List (Finset Nat)).map
        (massOf (fun n => if n = 0 then "C" else if n = 1 then "H" else "My"))).sum ∧
     ∀ e : String, PERIODIC_TABLE.lookup e = none → atomMass e = 0) :=
  ⟨by decide,
   c8_mass_additive (fun n => if n = 0 then "C" else if n = 1 then "H" else "My")
     ⟨{0, 1, 2}⟩ [{0}, {1, 2}] (by simp [Finset.disjoint_left]) (by decide)⟩

/-- Modelled from the spec: the `Pdb` structure-file container
(`atomium/files/pdb.py` is not present under src, only its tests are); the
state needed for the code accessor is the stored, initially absent, code. -/
structure Pdb where
  _code : Option String
deriving DecidableEq

/-- A structure-file code is valid when it has exactly 4 characters and its
first character is a digit. -/
def pdbCodeValid (s : String) : Prop :=
  s.length = 4 ∧ (s.data.headD ' ').isDigit = true

instance (s : String) : Decidable (pdbCodeValid s) :=
  inferInstanceAs (Decidable (_ ∧ _))

/-- Modelled from the spec: the setter branch of the `Pdb.code` accessor;
setting validates the type first (a non-string fails with a `TypeError`-class
error), then the format (exactly 4 characters, first character numeric — any
violation fails with a `ValueError`-class error), and a valid code is stored. -/
def Pdb.setCode (p : Pdb) (v : PyObj) : Except PyError Pdb :=
  match v with
  | .str s => if pdbCodeValid s then .ok { p with _code := some s } else .error .valueError
  | _ => .error .typeError

/-- **C9**: setting the structure-file code to a non-string value always
fails with a `TypeError`-class error; setting it to a string that is not
exactly 4 characters with a numeric first character always fails with a
`ValueError`-class error; and setting it to the string 1abc always succeeds
and updates the stored code to 1abc. -/
theorem c9_code_validation :
    (∀ (p : Pdb) (v : PyObj), (∀ s : String, v ≠ .str s) →
       Pdb.setCode p v = .error .typeError) ∧
    (∀ (p : Pdb) (s : String), ¬ pdbCodeValid s →
       Pdb.setCode p (.str s) = .error .valueError) ∧
    (∀ p : Pdb, Pdb.setCode p (.str "1abc") = .ok { p with _code := some "1abc" }) := by
  refine ⟨?_, ?_, ?_⟩
  · intro p v hv
    match v with
    | .str s => exact absurd rfl (hv s)
    | .atom i => rfl
    | .int n => rfl
  · intro p s hs
    simp only [Pdb.setCode]
    rw [if_neg hs]
  · intro p
    simp only [Pdb.setCode]
    rw [if_pos (by decide)]

/-- Witness for C9: on a container with no stored code, the integer 100 fails
with a `TypeError`; the strings 1abcd, abcd and 1ab fail with a `ValueError`;
and 1abc succeeds, storing the code. -/
theorem c9_witness :
    Pdb.setCode ⟨none⟩ (.int 100) = .error .typeError ∧
    Pdb.setCode ⟨none⟩ (.str "1abcd") = .error .valueError ∧
    Pdb.setCode ⟨none⟩ (.str "abcd") = .error .valueError ∧
    Pdb.setCode ⟨none⟩ (.str "1ab") = .error .valueError ∧
    Pdb.setCode ⟨none⟩ (.str "1abc") = .ok ⟨some "1abc"⟩ :=
  ⟨c9_code_validation.1 ⟨none⟩ (.int 100) (fun s h => by cases h),
   c9_code_validation.2.1 ⟨none⟩ "1abcd" (by decide),
   c9_code_validation.2.1 ⟨none⟩ "abcd" (by decide),
   c9_code_validation.2.1 ⟨none⟩ "1ab" (by decide),
   c9_code_validation.2.2 ⟨none⟩⟩

/-- A heap of Python set objects, indexed by object identity: the model for
observing that `atoms()` hands out a copy of `self._atoms` (the source line
`atoms = set(self._atoms)`) rather than the backing set itself. -/
structure PySetStore where
  data : List (Finset Nat)
deriving DecidableEq

/-- Dereference a set object. -/
def PySetStore.read (st : PySetStore) (i : Nat) : Finset Nat :=
  st.data.getD i ∅

/-- Overwrite the contents of a set object in place (the effect of mutating
it, e.g. by `add` or `remove`). -/
def PySetStore.write (st : PySetStore) (i : Nat) (s : Finset Nat) : PySetStore :=
  ⟨st.data.set i s⟩

/-- `set(x)` allocates a fresh set object holding the given contents and
returns its identity. -/
def PySetStore.alloc (st : PySetStore) (s : Finset Nat) : PySetStore × Nat :=
  (⟨st.data ++ [s]⟩, st.data.length)

/-- `AtomicStructure.atoms` (no filter) at the heap level: the method body
`atoms = set(self._atoms)` allocates a fresh set holding a copy of the
backing set's contents and returns the fresh object, never the backing set
itself. -/
def atomsSetCopy (st : PySetStore) (backing : Nat) : PySetStore × Nat :=
  st.alloc (st.read backing)

/-- Reading an index below the length of the original data after appending
one element gives the original element. -/
theorem getD_append_lt {α : Type} (d : α) :
    ∀ (l : List α) (x : α) (i : Nat), i < l.length →
      (l ++ [x]).getD i d = l.getD i d := by
  intro l
  induction l with
  | nil => intro x i hi; cases hi
  | cons a as ih =>
    intro x i hi
    match i with
    | 0 => rfl
    | Nat.succ j =>
      show (as ++ [x]).getD j d = as.getD j d
      exact ih x j (Nat.lt_of_succ_lt_succ hi)

/-- Reading the appended position gives the appended element. -/
theorem getD_append_last {α : Type} (d : α) :
    ∀ (l : List α) (x : α), (l ++ [x]).getD l.length d = x := by
  intro l
  induction l with
  | nil => intro x; rfl
  | cons a as ih => intro x; exact ih x

/-- Setting one position leaves reads at other positions unchanged. -/
theorem getD_set_ne {α : Type} (d : α) :
    ∀ (l : List α) (j i : Nat) (x : α), i ≠ j → (l.set j x).getD i d = l.getD i d := by
  intro l
  induction l with
  | nil => intro j i x _; rfl
  | cons a as ih =>
    intro j i x hij
    match j, i with
    | 0, 0 => exact absurd rfl hij
    | 0, Nat.succ i' => rfl
    | Nat.succ j', 0 => rfl
    | Nat.succ j', Nat.succ i' =>
      show (as.set j' x).getD i' d = as.getD i' d
      exact ih j' i' x (fun h => hij (congrArg Nat.succ h))

/-- **C10**: `atoms()` returns a fresh set object, not the structure's
backing set: for every valid backing reference, the returned object is a
distinct object whose contents equal the backing set's, and overwriting the
returned object with any contents whatsoever (which subsumes adding or
removing elements) leaves the contents of the backing set unchanged. -/
theorem c10_atoms_fresh_set (st : PySetStore) (b : Nat)
    (hb : b < st.data.length) :
    (atomsSetCopy st b).2 ≠ b ∧
    (atomsSetCopy st b).1.read (atomsSetCopy st b).2 = st.read b ∧
    ∀ m : Finset Nat,
      ((atomsSetCopy st b).1.write (atomsSetCopy st b).2 m).read b = st.read b := by
  refine ⟨Nat.ne_of_gt hb, ?_, ?_⟩
  · show (st.data ++ [st.read b]).getD st.data.length ∅ = st.read b
    exact getD_append_last ∅ st.data (st.read b)
  · intro m
    show ((st.data ++ [st.read b]).set st.data.length m).getD b ∅ = st.data.getD b ∅
    rw [getD_set_ne ∅ _ _ _ _ (Nat.ne_of_lt hb)]
    exact getD_append_lt ∅ st.data (st.read b) b hb

/-- Witness for C10: a store holding one backing set; the copy handed out by
`atoms()` is a different object, holds the same contents, and emptying the
copy leaves the backing set intact. -/
theorem c10_witness :
    (0 : Nat) < (PySetStore.mk [{5}]).data.length ∧
    ((atomsSetCopy ⟨[{5}]⟩ 0).2 ≠ 0 ∧
     (atomsSetCopy ⟨[{5}]⟩ 0).1.read (atomsSetCopy ⟨[{5}]⟩ 0).2 = PySetStore.read ⟨[{5}]⟩ 0 ∧
     ∀ m : Finset Nat,
       ((atomsSetCopy ⟨[{5}]⟩ 0).1.write (atomsSetCopy ⟨[{5}]⟩ 0).2 m).read 0 =
         PySetStore.read ⟨[{5}]⟩ 0) :=
  ⟨by decide, c10_atoms_fresh_set ⟨[{5}]⟩ 0 (by decide)⟩
